import Mathlib

/-!
Verification of the capacity-access data pipeline (parser.py, analysis.py,
models.py) against its natural-language specification.

The embedding models the Python code shallowly:
  * CSV cell values are Option String (none models a missing cell / NaN read).
  * Python floats are modelled by PyFloat: NaN, signed infinity, or an exact
    rational.  All numeric values appearing in this data set are (small)
    decimal integers, for which the rational model coincides with IEEE
    doubles; rounding is irrelevant to the claims proved here.
  * Python str operations (strip, upper, lower, split, replace, "in") are
    modelled character-exactly for ASCII.  The source data and the claims
    only exercise ASCII case mapping; Unicode-specific case folding is out of
    the modelled scope and is noted where relevant.
  * pandas DataFrames become lists of Row records; boolean masks become
    List.filter; DataFrame.sort_values(col, ascending=False) is modelled as
    pandas implements it for a single key: the reverse of a stable ascending
    argsort (numpy argsort runs a stable insertion sort in its small-array
    regime; pandas nargsort then reverses the ascending indexer for
    descending order).
-/

/-! ## Python string primitives -/

/-- The whitespace characters stripped by Python str.strip (ASCII part). -/
def isPyWS (c : Char) : Bool :=
  c == ' ' || c == '\t' || c == '\n' || c == '\r' || c == '\x0b' || c == '\x0c'

/-- Strip leading and trailing whitespace from a character list. -/
def stripChars (cs : List Char) : List Char :=
  (((cs.dropWhile isPyWS).reverse).dropWhile isPyWS).reverse

/-- Model of Python str.strip() (ASCII whitespace). -/
def pyStrip (s : String) : String :=
  ⟨stripChars s.data⟩

/-- Model of Python str.replace(".", ""): drop every dot character. -/
def removeDots (s : String) : String :=
  ⟨s.data.filter (fun c => c != '.')⟩

/-- ASCII lower-casing of one character (model of Python str.lower on the
ASCII range, which is all the source data exercises). -/
def asciiLower (c : Char) : Char :=
  if 65 ≤ c.toNat ∧ c.toNat ≤ 90 then Char.ofNat (c.toNat + 32) else c

/-- ASCII upper-casing of one character (model of Python str.upper on the
ASCII range). -/
def asciiUpper (c : Char) : Char :=
  if 97 ≤ c.toNat ∧ c.toNat ≤ 122 then Char.ofNat (c.toNat - 32) else c

/-- Model of Python str.upper() (ASCII range). -/
def pyUpper (s : String) : String :=
  ⟨s.data.map asciiUpper⟩

/-- Model of Python str.lower() (ASCII range). -/
def pyLower (s : String) : String :=
  ⟨s.data.map asciiLower⟩

/-- needle occurs as a contiguous run inside hay (both as char lists). -/
def listStarts : List Char → List Char → Bool
  | [], _ => true
  | _ :: _, [] => false
  | n :: ns, h :: hs => n == h && listStarts ns hs

/-- Substring occurrence test on character lists. -/
def listHasSub (needle hay : List Char) : Bool :=
  match hay with
  | [] => listStarts needle []
  | _ :: hs => listStarts needle hay || listHasSub needle hs

/-- Model of Python "sub in s" (substring containment). -/
def pyContains (s sub : String) : Bool :=
  listHasSub sub.data s.data

/-- Case-insensitive substring containment: model of
pandas Series.str.contains(pat, case=False) for a pattern free of regular
expression metacharacters (every query exercised here is a literal string,
for which re.search degenerates to substring search). -/
def ciContains (s sub : String) : Bool :=
  listHasSub (sub.data.map asciiLower) (s.data.map asciiLower)

/-! ## Python float() parsing

Model of CPython float(str) on ASCII input: optional whitespace, optional
sign, then either a case-insensitive keyword (inf, infinity, nan) or a
decimal number with optional fraction part and exponent, PEP-515 underscores
between digits.  Finite values are kept exactly. -/

/-- A Python float value: NaN, a signed infinity, or a finite value.  A
finite value is kept in exact decimal scientific form, mantissa × 10^tens:
every float literal in this source format denotes such a number, and the
representation avoids any rounding.  Note 1310.0 is represented as
finite 1310 0. -/
inductive PyFloat where
  | nan : PyFloat
  | inf (neg : Bool) : PyFloat
  | finite (mantissa : ℤ) (tens : ℤ) : PyFloat
deriving DecidableEq, Repr

/-- Ten to an integer power, as a rational. -/
def pow10 (e : ℤ) : ℚ :=
  if 0 ≤ e then ((10 : ℚ) ^ e.toNat) else 1 / ((10 : ℚ) ^ (-e).toNat)

/-- The exact rational value of a Python float (0 for NaN and infinities,
which are quoted only where their value is irrelevant). -/
def PyFloat.value : PyFloat → ℚ
  | .nan => 0
  | .inf _ => 0
  | .finite m t => (m : ℚ) * pow10 t

/-- True when the Python float is non-negative and not NaN. -/
def PyFloat.isNonneg : PyFloat → Bool
  | .nan => false
  | .inf neg => !neg
  | .finite m _ => decide (0 ≤ m)

/-- Consume a run of decimal digits with PEP-515 underscores (an underscore
may only stand between two digits).  Returns the accumulated value, the
number of digits consumed, and the unconsumed remainder. -/
def digitsRun : List Char → ℕ → ℕ → ℕ × ℕ × List Char
  | [], acc, cnt => (acc, cnt, [])
  | c :: rest, acc, cnt =>
    if c.isDigit then
      digitsRun rest (10 * acc + (c.toNat - 48)) (cnt + 1)
    else if c == '_' && cnt != 0 && (match rest with | d :: _ => d.isDigit | [] => false) then
      digitsRun rest acc cnt
    else (acc, cnt, c :: rest)

/-- Parse the mantissa: digits, optionally a dot and more digits.  At least
one digit must be present overall.  Returns integer part, fraction digits
value, fraction digit count, remainder. -/
def parseMantissa (cs : List Char) : Option (ℕ × ℕ × ℕ × List Char) :=
  let r0 := digitsRun cs 0 0
  match r0.2.2 with
  | '.' :: r2 =>
    let rf := digitsRun r2 0 0
    if r0.2.1 + rf.2.1 = 0 then none else some (r0.1, rf.1, rf.2.1, rf.2.2)
  | _ => if r0.2.1 = 0 then none else some (r0.1, 0, 0, r0.2.2)

/-- Parse an optional exponent occupying the whole remainder.  An empty
remainder means exponent 0; anything other than a complete well-formed
exponent is a failure. -/
def parseExp : List Char → Option ℤ
  | [] => some 0
  | c :: rest =>
    if c = 'e' ∨ c = 'E' then
      let sr : Bool × List Char :=
        match rest with
        | s :: rest2 =>
          if s = '+' then (false, rest2)
          else if s = '-' then (true, rest2)
          else (false, s :: rest2)
        | [] => (false, [])
      let rd := digitsRun sr.2 0 0
      if rd.2.1 ≠ 0 ∧ rd.2.2 = [] then
        some (if sr.1 then -(rd.1 : ℤ) else (rd.1 : ℤ))
      else none
    else none

/-- The unsigned decimal value ip.fp × 10^e rendered as an integer mantissa
ip·10^fc + fp together with the decimal exponent e - fc. -/
def decValue (ip fp fc : ℕ) (e : ℤ) : ℕ × ℤ :=
  (ip * 10 ^ fc + fp, e - fc)

/-- Parse an unsigned finite float literal occupying the whole input,
returning its unsigned mantissa and decimal exponent. -/
def parseFin (cs : List Char) : Option (ℕ × ℤ) :=
  match parseMantissa cs with
  | none => none
  | some (ip, fp, fc, r) =>
    match parseExp r with
    | none => none
    | some e => some (decValue ip fp fc e)

/-- Case-insensitive match of the keywords "inf" and "infinity". -/
def isInfKW : List Char → Bool
  | [a, b, c] =>
    (a == 'i' || a == 'I') && (b == 'n' || b == 'N') && (c == 'f' || c == 'F')
  | [a, b, c, d, e, f, g, h] =>
    (a == 'i' || a == 'I') && (b == 'n' || b == 'N') && (c == 'f' || c == 'F') &&
    (d == 'i' || d == 'I') && (e == 'n' || e == 'N') && (f == 'i' || f == 'I') &&
    (g == 't' || g == 'T') && (h == 'y' || h == 'Y')
  | _ => false

/-- Case-insensitive match of the keyword "nan". -/
def isNanKW : List Char → Bool
  | [a, b, c] =>
    (a == 'n' || a == 'N') && (b == 'a' || b == 'A') && (c == 'n' || c == 'N')
  | _ => false

/-- Model of Python float(s): none models a ValueError. -/
def pyFloatOfString (s : String) : Option PyFloat :=
  match stripChars s.data with
  | [] => none
  | c :: rest =>
    let sb : Bool × List Char :=
      if c = '-' then (true, rest)
      else if c = '+' then (false, rest)
      else (false, c :: rest)
    if isInfKW sb.2 then some (.inf sb.1)
    else if isNanKW sb.2 then some .nan
    else
      match parseFin sb.2 with
      | some mt => some (.finite (if sb.1 then -(mt.1 : ℤ) else (mt.1 : ℤ)) mt.2)
      | none => none

/-! ## parser.py: _parse_num -/

/-- Embedding of parser._parse_num.  The argument is the raw cell: none
models a missing value (pd.isna).  The function is total — the source
catches ValueError and returns 0.0, so no exception can escape. -/
def _parse_num (val : Option String) : PyFloat :=
  match val with
  | none => .finite 0 0
  | some v0 =>
    let v1 := pyStrip v0
    if v1 = "" ∨ v1 = "N/A" then .finite 0 0
    else
      match pyFloatOfString (removeDots v1) with
      | some f => f
      | none => .finite 0 0

/-- parseNumber as worded by the specification: trim whitespace; if the
result is empty or the literal "N/A", or the value is missing, return 0.0;
otherwise strip every dot character and parse the remainder as a float,
returning 0.0 if that parse fails. -/
def parseNumber_spec (val : Option String) : PyFloat :=
  match val with
  | none => .finite 0 0
  | some raw =>
    let t := pyStrip raw
    if t = "" then .finite 0 0
    else if t = "N/A" then .finite 0 0
    else
      match pyFloatOfString (removeDots t) with
      | some f => f
      | none => .finite 0 0

/-- Model of one numeric DataFrame column conversion:
df[col].apply(_parse_num). -/
def parse_numeric_column (cells : List (Option String)) : List PyFloat :=
  cells.map _parse_num

/-- A raw cell containing neither a minus sign nor the letter n/N: such a
cell can spell neither a negative number nor a NaN. -/
def goodCell (s : String) : Prop :=
  ∀ c ∈ s.data, c ≠ '-' ∧ c ≠ 'n' ∧ c ≠ 'N'

instance : DecidablePred goodCell := fun s =>
  inferInstanceAs (Decidable (∀ c ∈ s.data, c ≠ '-' ∧ c ≠ 'n' ∧ c ≠ 'N'))

/-! ## Python int() and number formatting -/

/-- Model of Python int(float) on a finite value: truncation toward zero.
A rational is stored normalized, so integer division of numerator by
denominator with truncation toward zero (Int.tdiv) is exact truncation. -/
def pyInt (q : ℚ) : ℤ :=
  q.num.tdiv q.den

/-- Insert a comma after every three digits, working over the reversed
digit list; n counts digits already emitted in the current group. -/
def commaRev : List Char → ℕ → List Char
  | [], _ => []
  | c :: rest, n =>
    if n = 3 then ',' :: c :: commaRev rest 1 else c :: commaRev rest (n + 1)

/-- Format a natural number with comma thousands separators. -/
def commaFmtNat (n : ℕ) : String :=
  ⟨(commaRev (toString n).data.reverse 0).reverse⟩

/-- Model of the Python format f"{z:,}" for an int. -/
def commaFmt (z : ℤ) : String :=
  if z < 0 then "-" ++ commaFmtNat z.natAbs else commaFmtNat z.natAbs

/-! ## Python str.split("/") and its join -/

/-- Model of Python str.split("/") on character lists. -/
def splitSlashChars : List Char → List (List Char)
  | [] => [[]]
  | c :: rest =>
    if c = '/' then [] :: splitSlashChars rest
    else
      match splitSlashChars rest with
      | g :: gs => (c :: g) :: gs
      | [] => [[c]]

/-- Model of Python code.split("/"). -/
def pySplitSlash (s : String) : List String :=
  (splitSlashChars s.data).map (fun g => ⟨g⟩)

/-- Join character lists with a slash (inverse of splitSlashChars on
slash-free parts). -/
def joinSlashChars : List (List Char) → List Char
  | [] => []
  | [g] => g
  | g :: g2 :: gs => g ++ '/' :: joinSlashChars (g2 :: gs)

/-- Join strings with "/" between them. -/
def joinSlash (ps : List String) : String :=
  ⟨joinSlashChars (ps.map (fun p => p.data))⟩

/-! ## models.py: schema constants -/

/-- The 61 positional column names of the source CSV (models.COLUMN_NAMES). -/
def COLUMN_NAMES : List String :=
  ["nudo", "cod_subestacion", "ccaa",
   "pos_gen_E", "pos_gen_P", "pos_con_E", "pos_con_P", "pos_dist_E", "pos_dist_P",
   "wscr_cap_nodal", "wscr_binudos", "wscr_alertas", "wscr_margen",
   "est_dem_cap_nodal", "est_dem_zona", "est_dem_margen", "est_dem_limit_temp",
   "est_alm_cap_nodal", "est_alm_zona", "est_alm_margen",
   "din1_margen", "din2_margen",
   "valor_referencia", "estado_acuerdo",
   "otorgada_dem_adicional", "otorgada_dem_cep_wscr", "otorgada_dem_rdt",
   "otorgada_dem_rdd", "otorgada_dem_rdd_no_ref",
   "otorgada_alm_adicional", "otorgada_alm_rdt", "otorgada_alm_rdd",
   "otorgada_alm_rdd_no_ref",
   "otorgada_dem_ch_rdt", "otorgada_dem_sh_rdt", "otorgada_ch_rdd", "otorgada_sh_rdd",
   "pendiente_dem_rdt", "pendiente_alm_rdt",
   "margen_dem_cep_ch", "margen_dem_cep_sh", "margen_dem_no_cep",
   "margen_alm_cep", "margen_alm_no_cep",
   "limitante_dem_cep_ch", "limitante_dem_cep_sh", "limitante_dem_no_cep",
   "limitante_alm_cep", "limitante_alm_no_cep",
   "no_otorg_dem_cep_ch", "no_otorg_dem_cep_sh", "no_otorg_dem_no_cep",
   "no_otorg_alm_cep", "no_otorg_alm_no_cep",
   "motivo_no_otorgable",
   "disp_dem_cep_ch", "disp_dem_cep_sh", "disp_dem_no_cep",
   "disp_alm_cep", "disp_alm_no_cep",
   "concurso"]

/-- models.EXPECTED_ROWS. -/
def EXPECTED_ROWS : ℤ := 937

/-- models.EXPECTED_COLS. -/
def EXPECTED_COLS : ℤ := 61

/-- models.CCAA_LIST: the 18 autonomous communities of the data set. -/
def CCAA_LIST : List String :=
  ["Andalucía", "Aragón", "Canarias", "Cantabria",
   "Castilla y León", "Castilla-La Mancha", "Cataluña",
   "Ceuta", "Comunidad de Madrid", "Comunidad Foral de Navarra",
   "Comunidad Valenciana", "Extremadura", "Galicia",
   "Islas Baleares", "La Rioja", "País Vasco",
   "Principado de Asturias", "Región de Murcia"]

/-! ## The loaded table row

One row of the DataFrame produced by load_csv, restricted to the columns
the analysis layer consumes.  Numeric columns hold the finite float value
produced by _parse_num as an exact rational; position columns hold
booleans; string columns hold stripped strings (never null); voltage_kv is
none when the node name has no trailing digits (the NaN produced by
str.extract(...).astype(float)); has_demand_bay, is_concurso are the derived
columns computed at load time. -/
structure Row where
  nudo : String
  cod_subestacion : String
  ccaa : String
  pos_gen_E : Bool
  pos_gen_P : Bool
  pos_con_E : Bool
  pos_con_P : Bool
  pos_dist_E : Bool
  pos_dist_P : Bool
  wscr_cap_nodal : ℚ
  wscr_binudos : String
  wscr_alertas : String
  wscr_margen : ℚ
  est_dem_cap_nodal : ℚ
  est_dem_margen : ℚ
  est_dem_limit_temp : String
  est_alm_cap_nodal : ℚ
  est_alm_margen : ℚ
  din1_margen : ℚ
  din2_margen : ℚ
  valor_referencia : ℚ
  estado_acuerdo : String
  otorgada_dem_rdt : ℚ
  otorgada_alm_rdt : ℚ
  pendiente_dem_rdt : ℚ
  pendiente_alm_rdt : ℚ
  limitante_dem_cep_ch : String
  limitante_dem_cep_sh : String
  limitante_dem_no_cep : String
  limitante_alm_cep : String
  limitante_alm_no_cep : String
  no_otorg_dem_cep_ch : ℚ
  no_otorg_dem_no_cep : ℚ
  motivo_no_otorgable : String
  disp_dem_cep_ch : ℚ
  disp_dem_cep_sh : ℚ
  disp_dem_no_cep : ℚ
  disp_alm_cep : ℚ
  disp_alm_no_cep : ℚ
  has_demand_bay : Bool
  is_concurso : Bool
  voltage_kv : Option ℚ
deriving DecidableEq

/-- A neutral row used as the base of concrete test rows. -/
def baseRow : Row where
  nudo := ""
  cod_subestacion := ""
  ccaa := ""
  pos_gen_E := false
  pos_gen_P := false
  pos_con_E := false
  pos_con_P := false
  pos_dist_E := false
  pos_dist_P := false
  wscr_cap_nodal := 0
  wscr_binudos := ""
  wscr_alertas := ""
  wscr_margen := 0
  est_dem_cap_nodal := 0
  est_dem_margen := 0
  est_dem_limit_temp := ""
  est_alm_cap_nodal := 0
  est_alm_margen := 0
  din1_margen := 0
  din2_margen := 0
  valor_referencia := 0
  estado_acuerdo := ""
  otorgada_dem_rdt := 0
  otorgada_alm_rdt := 0
  pendiente_dem_rdt := 0
  pendiente_alm_rdt := 0
  limitante_dem_cep_ch := ""
  limitante_dem_cep_sh := ""
  limitante_dem_no_cep := ""
  limitante_alm_cep := ""
  limitante_alm_no_cep := ""
  no_otorg_dem_cep_ch := 0
  no_otorg_dem_no_cep := 0
  motivo_no_otorgable := ""
  disp_dem_cep_ch := 0
  disp_dem_cep_sh := 0
  disp_dem_no_cep := 0
  disp_alm_cep := 0
  disp_alm_no_cep := 0
  has_demand_bay := false
  is_concurso := false
  voltage_kv := none

/-- The loaded DataFrame: its rows plus its column count (only the latter
is inspected by the column-count validation check). -/
structure Table where
  rows : List Row
  ncols : ℕ

/-! ## analysis.py: filter_nodes -/

/-- Embedding of analysis.filter_nodes.  Each predicate contributes to a
conjunctive boolean mask exactly as in the source: a falsy (None or empty)
ccaa contributes nothing, min_mw only filters when positive, a voltage
filter compares NaN (none) as unequal to everything, only_available demands
capacity strictly positive, and only_concurso (when given) compares the
derived flag with the requested boolean. -/
def filter_nodes (df : List Row) (ccaa : Option String) (min_mw : ℚ)
    (capacity_col : Row → ℚ) (voltage_kv : Option ℚ) (only_available : Bool)
    (only_concurso : Option Bool) : List Row :=
  df.filter (fun r =>
    (match ccaa with
     | none => true
     | some q => if q = "" then true else ciContains r.ccaa q) &&
    (if 0 < min_mw then decide (min_mw ≤ capacity_col r) else true) &&
    (match voltage_kv with
     | none => true
     | some v =>
       match r.voltage_kv with
       | none => false
       | some w => decide (w = v)) &&
    (if only_available then decide (0 < capacity_col r) else true) &&
    (match only_concurso with
     | none => true
     | some b => r.is_concurso == b))

/-! ## analysis.py: top_nodes -/

/-- Model of DataFrame.sort_values(col, ascending=False) for one key, as
pandas executes it: nargsort computes an ascending argsort of the key
column (numpy insertion sort — stable — in its small-array regime) and then
reverses the whole indexer for the descending order. -/
def pandasSortDesc {α : Type} (key : α → ℚ) (l : List α) : List α :=
  (List.insertionSort (fun a b => key a ≤ key b) l).reverse

/-- Embedding of analysis.top_nodes: keep rows with key strictly positive,
sort descending by the key, take the first n.  (The source also projects to
six display columns; the projection is immaterial to row identity and
order, so rows are kept whole.) -/
def top_nodes (df : List Row) (n : ℕ) (capacity_col : Row → ℚ) : List Row :=
  (pandasSortDesc capacity_col (df.filter (fun r => decide (0 < capacity_col r)))).take n

/-! ## parser.py: validate -/

/-- One validation check result: the expected value, the reported actual
value, and the verdict. -/
structure Check where
  expected : ℤ
  actual : ℤ
  ok : Bool
deriving DecidableEq, Repr

/-- Embedding of parser.validate.  Note the col_count check reports
COLUMN_NAMES.length — the schema constant — in its actual field (exactly as
the source does), while its verdict compares the table column count with
EXPECTED_COLS. -/
def validate (t : Table) : List (String × Check) :=
  [("row_count",
    ⟨EXPECTED_ROWS, t.rows.length, decide ((t.rows.length : ℤ) = EXPECTED_ROWS)⟩),
   ("col_count",
    ⟨EXPECTED_COLS, COLUMN_NAMES.length, decide ((t.ncols : ℤ) ≥ EXPECTED_COLS)⟩),
   ("total_cep_ch_mw",
    let total := pyInt ((t.rows.map (fun r => r.disp_dem_cep_ch)).foldl (· + ·) 0)
    ⟨39643, total, decide (|total - 39643| < 100)⟩),
   ("cataluna_nodes",
    let c := (t.rows.filter (fun r => r.ccaa == "Cataluña")).length
    ⟨118, c, decide (c = 118)⟩),
   ("unique_ccaa",
    let u := (t.rows.map (fun r => r.ccaa)).dedup.length
    ⟨18, u, decide (u = 18)⟩)]

/-! ## analysis.py: diagnose_node -/

/-- The positions sub-dictionary of a diagnostic record. -/
structure Positions where
  gen_E : Bool
  gen_P : Bool
  con_E : Bool
  con_P : Bool
  dist_E : Bool
  dist_P : Bool
deriving DecidableEq

/-- The margins sub-dictionary of a diagnostic record (all int()-converted). -/
structure Margins where
  WSCR : ℤ
  WSCR_margin : ℤ
  Est_Dem : ℤ
  Est_Dem_margin : ℤ
  Est_Alm : ℤ
  Est_Alm_margin : ℤ
  Din1_margin : ℤ
  Din2_margin : ℤ
deriving DecidableEq

/-- The available-capacity sub-dictionary of a diagnostic record. -/
structure Avail where
  CEP_CH : ℤ
  CEP_SH : ℤ
  NO_CEP : ℤ
  Storage_CEP : ℤ
  Storage_NO_CEP : ℤ
deriving DecidableEq

/-- The binding-criteria sub-dictionary of a diagnostic record. -/
structure Binding where
  CEP_CH : String
  CEP_SH : String
  NO_CEP : String
  Storage_CEP : String
  Storage_NO_CEP : String
deriving DecidableEq

/-- The non-grantable sub-dictionary of a diagnostic record. -/
structure NonGrantable where
  CEP_CH : ℤ
  NO_CEP : ℤ
deriving DecidableEq

/-- The diagnostic record built by diagnose_node for a resolved row. -/
structure Diag where
  nudo : String
  ccaa : String
  cod_subestacion : String
  voltage_kv : Option ℚ
  has_demand_bay : Bool
  positions : Positions
  margins : Margins
  wscr_binudos : String
  wscr_alertas : String
  valor_referencia : ℤ
  estado_acuerdo : String
  otorgada_dem_rdt : ℤ
  otorgada_alm_rdt : ℤ
  pendiente_dem_rdt : ℤ
  pendiente_alm_rdt : ℤ
  available : Avail
  binding_criteria : Binding
  non_grantable : NonGrantable
  motivo_no_otorgable : String
  is_concurso : Bool
  est_dem_limit_temp : String
  status : String
  summary : String
deriving DecidableEq

/-- The outcome of diagnose_node: the record, or one of the two error
dictionaries ({"error": msg} and {"error": msg, "matches": names}). -/
inductive DiagResult where
  | err (msg : String) : DiagResult
  | errMatches (msg : String) (names : List String) : DiagResult
  | record (d : Diag) : DiagResult
deriving DecidableEq

/-- Build the diagnostic record for one resolved row, including the status
classification and one-line summary, exactly as diagnose_node assembles its
dict: numeric fields pass through Python int() (truncation). -/
def mkDiag (row : Row) : Diag :=
  let cep_ch := pyInt row.disp_dem_cep_ch
  let ss : String × String :=
    if 0 < cep_ch then
      ("AVAILABLE", toString cep_ch ++ " MW available for CEP CH demand")
    else if row.limitante_dem_cep_ch ≠ "" then
      ("BLOCKED_TECHNICAL", "Technically blocked by " ++ row.limitante_dem_cep_ch)
    else if row.motivo_no_otorgable ≠ "" then
      ("BLOCKED_REGULATORY", "Regulatory block: " ++ row.motivo_no_otorgable)
    else
      ("BLOCKED_UNKNOWN", "Blocked — no criteria or regulatory reason reported")
  { nudo := row.nudo
    ccaa := row.ccaa
    cod_subestacion := row.cod_subestacion
    voltage_kv := row.voltage_kv
    has_demand_bay := row.has_demand_bay
    positions :=
      { gen_E := row.pos_gen_E, gen_P := row.pos_gen_P
        con_E := row.pos_con_E, con_P := row.pos_con_P
        dist_E := row.pos_dist_E, dist_P := row.pos_dist_P }
    margins :=
      { WSCR := pyInt row.wscr_cap_nodal
        WSCR_margin := pyInt row.wscr_margen
        Est_Dem := pyInt row.est_dem_cap_nodal
        Est_Dem_margin := pyInt row.est_dem_margen
        Est_Alm := pyInt row.est_alm_cap_nodal
        Est_Alm_margin := pyInt row.est_alm_margen
        Din1_margin := pyInt row.din1_margen
        Din2_margin := pyInt row.din2_margen }
    wscr_binudos := row.wscr_binudos
    wscr_alertas := row.wscr_alertas
    valor_referencia := pyInt row.valor_referencia
    estado_acuerdo := row.estado_acuerdo
    otorgada_dem_rdt := pyInt row.otorgada_dem_rdt
    otorgada_alm_rdt := pyInt row.otorgada_alm_rdt
    pendiente_dem_rdt := pyInt row.pendiente_dem_rdt
    pendiente_alm_rdt := pyInt row.pendiente_alm_rdt
    available :=
      { CEP_CH := cep_ch
        CEP_SH := pyInt row.disp_dem_cep_sh
        NO_CEP := pyInt row.disp_dem_no_cep
        Storage_CEP := pyInt row.disp_alm_cep
        Storage_NO_CEP := pyInt row.disp_alm_no_cep }
    binding_criteria :=
      { CEP_CH := row.limitante_dem_cep_ch
        CEP_SH := row.limitante_dem_cep_sh
        NO_CEP := row.limitante_dem_no_cep
        Storage_CEP := row.limitante_alm_cep
        Storage_NO_CEP := row.limitante_alm_no_cep }
    non_grantable :=
      { CEP_CH := pyInt row.no_otorg_dem_cep_ch
        NO_CEP := pyInt row.no_otorg_dem_no_cep }
    motivo_no_otorgable := row.motivo_no_otorgable
    is_concurso := row.is_concurso
    est_dem_limit_temp := row.est_dem_limit_temp
    status := ss.1
    summary := ss.2 }

/-- Embedding of analysis.diagnose_node: exact case-insensitive name match
first; on no exact match, fuzzy (case-insensitive containment) match with
the not-found and multiple-match error outcomes; the first row of the
surviving match list is diagnosed. -/
def diagnose_node (df : List Row) (node_name : String) : DiagResult :=
  let exact := df.filter (fun r => pyUpper r.nudo == pyUpper node_name)
  match exact with
  | r :: _ => .record (mkDiag r)
  | [] =>
    let fuzzy := df.filter (fun r => ciContains r.nudo node_name)
    match fuzzy with
    | [] => .err ("Node '" ++ node_name ++ "' not found")
    | [r] => .record (mkDiag r)
    | _ :: _ :: _ =>
      .errMatches ("Multiple matches for '" ++ node_name ++ "'")
        (fuzzy.map (fun r => r.nudo))

/-! ## analysis.py: generate_report -/

/-- The string s starts with the given literal (Python str.startswith). -/
def strStarts (s kw : String) : Bool :=
  listStarts kw.data s.data

/-- The static criterion-context table of generate_report: criterion kind to
plain-language remediation context. -/
def criterionContext (p : String) : Option String :=
  if p = "WSCR" then some
    ("Not enough synchronous generation nearby to anchor voltage — " ++
     "the grid is electrically \"weak\" at this point. " ++
     "Synchronous condensers, grid-forming inverters, or new " ++
     "synchronous generation could lift this limit.")
  else if p = "Est_Dem" then some
    ("Thermal capacity of lines or transformers serving demand is " ++
     "exhausted. Grid reinforcement (new lines, transformer upgrades) " ++
     "would be needed to increase headroom.")
  else if p = "Est_Alm" then some
    ("Thermal capacity of lines or transformers serving storage " ++
     "connections is exhausted. Grid reinforcement (new lines, " ++
     "transformer upgrades) would be needed.")
  else if p = "Din1" then some
    ("The zone cannot absorb more load without risking oscillatory " ++
     "instability after a fault. Generation closer to load or network " ++
     "reinforcement for damping could help.")
  else if p = "Din2" then some
    ("Voltage recovery after faults is too slow in this zone. " ++
     "Reactive compensation or additional synchronous machines " ++
     "could improve recovery.")
  else none

/-- The static human-readable criterion-name table of generate_report. -/
def criterionNames (code : String) : Option String :=
  if code = "WSCR_Nudo" then some "WSCR (short-circuit ratio) at this node"
  else if code = "WSCR_Zona" then some "WSCR (short-circuit ratio) in the surrounding zone"
  else if code = "Est_Dem_Nudo" then some "steady-state demand capacity at this node"
  else if code = "Est_Dem_Zona" then some "steady-state demand capacity in the surrounding zone"
  else if code = "Est_Alm_Nudo" then some "steady-state storage capacity at this node"
  else if code = "Est_Alm_Zona" then some "steady-state storage capacity in the surrounding zone"
  else if code = "Din1_Zona" then some "transient stability (dynamic criterion 1) in the zone"
  else if code = "Din2_Zona" then some "transient stability (dynamic criterion 2) in the zone"
  else none

/-- generate_report helper _mw: format a value as "1,234 MW". -/
def _mw (val : ℤ) : String :=
  commaFmt val ++ " MW"

/-- generate_report helper _crit_name. -/
def _crit_name (code : String) : String :=
  if code = "" then "not reported"
  else if pyContains code "/" then
    " combined with ".intercalate
      ((pySplitSlash code).map (fun p => (criterionNames (pyStrip p)).getD (pyStrip p)))
  else (criterionNames code).getD code

/-- The margin field referenced by one criterion sub-code, per the
startswith chain of _margin_for_criterion (none when no known kind
matches, modelling the loop appending nothing). -/
def marginChain (c : String) (m : Margins) : Option ℤ :=
  if strStarts c "WSCR" then some m.WSCR_margin
  else if strStarts c "Est_Dem" then some m.Est_Dem_margin
  else if strStarts c "Est_Alm" then some m.Est_Alm_margin
  else if strStarts c "Din1" then some m.Din1_margin
  else if strStarts c "Din2" then some m.Din2_margin
  else none

/-- Embedding of the local helper _margin_for_criterion of generate_report: split a
combined code on "/", map each sub-code to its margin field, and format the
minimum margin; em-dash when the code is empty or nothing matched. -/
def _margin_for_criterion (code : String) (margins : Margins) : String :=
  if code = "" then "—"
  else
    let codes := if pyContains code "/" then (pySplitSlash code).map pyStrip else [code]
    let values := codes.filterMap (fun c => marginChain c margins)
    match values with
    | [] => "—"
    | v :: vs => commaFmt (vs.foldl min v)

/-- The criterion kind (WSCR, Est_Dem, Est_Alm, Din1, Din2) of one
sub-code, per the startswith chain of _criterion_explanation. -/
def kindChain (c : String) : Option String :=
  if strStarts c "WSCR" then some "WSCR"
  else if strStarts c "Est_Dem" then some "Est_Dem"
  else if strStarts c "Est_Alm" then some "Est_Alm"
  else if strStarts c "Din1" then some "Din1"
  else if strStarts c "Din2" then some "Din2"
  else none

/-- Embedding of the local helper _criterion_explanation of generate_report: split,
map sub-codes to kinds, de-duplicate preserving order, join the contexts. -/
def _criterion_explanation (code : String) : String :=
  if code = "" then ""
  else
    let codes := if pyContains code "/" then (pySplitSlash code).map pyStrip else [code]
    let kinds := codes.filterMap kindChain
    let unique := kinds.foldl (fun acc p => if p ∈ acc then acc else acc ++ [p]) []
    " ".intercalate (unique.filterMap criterionContext)

/-- The five capacity-table rows of the report: label, available field,
binding-criterion field. -/
def capRows (d : Diag) : List (String × ℤ × String) :=
  [("CEP CH demand", d.available.CEP_CH, d.binding_criteria.CEP_CH),
   ("CEP SH demand", d.available.CEP_SH, d.binding_criteria.CEP_SH),
   ("NO CEP demand", d.available.NO_CEP, d.binding_criteria.NO_CEP),
   ("CEP storage", d.available.Storage_CEP, d.binding_criteria.Storage_CEP),
   ("NO CEP storage", d.available.Storage_NO_CEP, d.binding_criteria.Storage_NO_CEP)]

/-- Assemble the report body for a record whose voltage unpacking
succeeded. -/
def buildReport (d : Diag) (voltage : ℤ) : String :=
  let header0 := "## " ++ d.nudo ++ " — " ++ d.ccaa ++ " (" ++ toString voltage ++ " kV)"
  let header :=
    if d.cod_subestacion ≠ "" then
      header0 ++ "  \nSubstation code: " ++ d.cod_subestacion
    else header0
  let tableLines :=
    (capRows d).map (fun lr =>
      let crit := lr.2.2
      let margin := _margin_for_criterion crit d.margins
      let critDisplay := if crit = "" then "—" else crit
      "| " ++ lr.1 ++ " | " ++ commaFmt lr.2.1 ++ " | " ++ critDisplay ++ " | " ++
        margin ++ " |")
  let primaryCrit := d.binding_criteria.CEP_CH
  let explanation := _criterion_explanation primaryCrit
  let whyLines : List String :=
    if explanation ≠ "" then
      ["### Why this limit?", "",
       "The binding criterion for CEP CH demand is **" ++ _crit_name primaryCrit ++ "**.",
       "", explanation, ""]
    else []
  let bayPairs : List (Bool × String) :=
    [(d.positions.gen_E, "Generation/storage bay (existing)"),
     (d.positions.gen_P, "Generation/storage bay (planned)"),
     (d.positions.con_E, "Demand bay (existing)"),
     (d.positions.con_P, "Demand bay (planned)"),
     (d.positions.dist_E, "Distribution connection (existing)"),
     (d.positions.dist_P, "Distribution connection (planned)")]
  let bayBullets0 := bayPairs.filterMap (fun bl =>
    if bl.1 then some ("- " ++ bl.2 ++ ": yes") else none)
  let bayBullets :=
    if !d.has_demand_bay then
      bayBullets0 ++ ["- **No demand bay** — physical connection needed"]
    else bayBullets0
  let bayLines : List String :=
    if bayBullets ≠ [] then ["### Grid connection", ""] ++ bayBullets ++ [""] else []
  let gpBullets : List String :=
    (if 0 < d.otorgada_dem_rdt then
      ["- Granted demand (RdT): " ++ _mw d.otorgada_dem_rdt] else []) ++
    (if 0 < d.otorgada_alm_rdt then
      ["- Granted storage (RdT): " ++ _mw d.otorgada_alm_rdt] else []) ++
    (if 0 < d.pendiente_dem_rdt then
      ["- Pending demand: " ++ _mw d.pendiente_dem_rdt] else []) ++
    (if 0 < d.pendiente_alm_rdt then
      ["- Pending storage: " ++ _mw d.pendiente_alm_rdt] else [])
  let gpLines : List String :=
    if gpBullets ≠ [] then ["### Granted & pending", ""] ++ gpBullets ++ [""] else []
  let agreementBullet :=
    if d.estado_acuerdo = "SI" then
      "- Reference value: " ++ _mw d.valor_referencia ++ " — agreement **reached**"
    else if d.estado_acuerdo = "NO" then
      "- Reference value: " ++ _mw d.valor_referencia ++ " — agreement **NOT reached**"
    else
      "- Reference value agreement: N/A (no distribution interface)"
  let concursoBullets : List String :=
    if d.is_concurso then ["- Subject to **competitive tender** (concurso)"] else []
  let ngItems : List String :=
    (if 0 < d.non_grantable.CEP_CH then
      ["CEP CH: " ++ _mw d.non_grantable.CEP_CH] else []) ++
    (if 0 < d.non_grantable.NO_CEP then
      ["NO CEP: " ++ _mw d.non_grantable.NO_CEP] else [])
  let ngBullets : List String :=
    if ngItems ≠ [] then
      let reason :=
        if d.motivo_no_otorgable ≠ "" then " — " ++ d.motivo_no_otorgable else ""
      ["- Non-grantable: " ++ ", ".intercalate ngItems ++ reason]
    else []
  let adminBullets := [agreementBullet] ++ concursoBullets ++ ngBullets
  let alertBullets0 : List String :=
    if d.wscr_alertas ≠ "" ∧ d.wscr_alertas ≠ "N/A" then
      [(if d.wscr_binudos ≠ "" ∧ d.wscr_binudos ≠ "N/A" then
          "- WSCR alert: " ++ d.wscr_alertas ++ " (shared with " ++ d.wscr_binudos ++ ")"
        else
          "- WSCR alert: " ++ d.wscr_alertas)]
    else if d.wscr_binudos ≠ "" ∧ d.wscr_binudos ≠ "N/A" then
      ["- WSCR shared node: " ++ d.wscr_binudos]
    else []
  let alertBullets :=
    alertBullets0 ++
    (if d.est_dem_limit_temp ≠ "" ∧ d.est_dem_limit_temp ≠ "No" then
      ["- Configuration limitation: " ++ d.est_dem_limit_temp] else [])
  let alertLines : List String :=
    if alertBullets ≠ [] then ["### Alerts", ""] ++ alertBullets ++ [""] else []
  let allLines : List String :=
    [header, ""] ++
    ["| Type | Available (MW) | Binding criterion | Margin (MW) |",
     "|------|---------------:|-------------------|------------:|"] ++
    tableLines ++ [""] ++
    whyLines ++ bayLines ++ gpLines ++
    ["### Administrative", ""] ++ adminBullets ++ [""] ++
    alertLines
  "\n".intercalate allLines

/-- Embedding of analysis.generate_report.  The error dictionaries render
as one line ("Error: " followed by the message only — the matches list is
not consulted).  For a record, the source converts diag["voltage_kv"] with
int() before any text is produced: when the voltage is NaN (none — a node
name without trailing digits), int() raises ValueError, modelled as
Except.error. -/
def generate_report (diag : DiagResult) : Except Unit String :=
  match diag with
  | .err msg => .ok ("Error: " ++ msg)
  | .errMatches msg _ => .ok ("Error: " ++ msg)
  | .record d =>
    match d.voltage_kv with
    | none => .error ()
    | some v => .ok (buildReport d (pyInt v))

/-! ## Concrete rows and tables used to instantiate the theorems -/

/-- A row whose primary available capacity is the fractional float 0.5
(producible by _parse_num, e.g. from the cell "5e-1"). -/
def rowHalf : Row :=
  { baseRow with nudo := "FRACNODE 400", disp_dem_cep_ch := ⟨1, 2, by decide, by decide⟩ }

/-- A row for a region whose name strictly contains "Galicia". -/
def rowGal : Row :=
  { baseRow with nudo := "GAL 400", ccaa := "Galician" }

/-- Two distinct rows sharing the same positive primary capacity. -/
def rowTieA : Row :=
  { baseRow with nudo := "TIE A 400", disp_dem_cep_ch := 5 }

/-- Second of the two tied rows. -/
def rowTieB : Row :=
  { baseRow with nudo := "TIE B 400", disp_dem_cep_ch := 5 }

/-- A node whose name has no trailing digits: its voltage_kv is NaN
(modelled none) after load. -/
def rowMadrid : Row :=
  { baseRow with nudo := "MADRID" }

/-- First of two rows matched fuzzily by the query "AB". -/
def rowAbanto : Row :=
  { baseRow with nudo := "ABANTO 400", voltage_kv := some 400 }

/-- Second of two rows matched fuzzily by the query "AB". -/
def rowAbanillas : Row :=
  { baseRow with nudo := "ABANILLAS 400", voltage_kv := some 400, disp_dem_cep_ch := 753 }

/-- A row mirroring the ESCATRON 400 scenario: zero primary capacity with a
combined binding criterion. -/
def rowEscatron : Row :=
  { baseRow with
      nudo := "ESCATRON 400"
      ccaa := "Aragón"
      voltage_kv := some 400
      disp_dem_cep_ch := 0
      limitante_dem_cep_ch := "Est_Dem_Nudo/Din1_Zona"
      est_dem_margen := 7
      din1_margen := 11 }

/-- A concrete margins record for the margin-lookup theorems. -/
def marginsEx : Margins :=
  { WSCR := 100, WSCR_margin := 15, Est_Dem := 200, Est_Dem_margin := 7
    Est_Alm := 300, Est_Alm_margin := 9, Din1_margin := 11, Din2_margin := 13 }

/-- A row in the region "Galicia" itself. -/
def rowSantiago : Row :=
  { baseRow with nudo := "SANTIAGO 220", ccaa := "Galicia" }

/-- Python min over a nonempty list given as head and tail. -/
def pyMin (v : ℤ) (vs : List ℤ) : ℤ :=
  vs.foldl min v

/-! ## Helper lemmas -/

theorem mem_of_mem_stripChars {c : Char} {cs : List Char}
    (h : c ∈ stripChars cs) : c ∈ cs := by
  unfold stripChars at h
  rw [List.mem_reverse] at h
  have h1 := (List.dropWhile_sublist (l := (cs.dropWhile isPyWS).reverse)
    (p := isPyWS)).subset h
  rw [List.mem_reverse] at h1
  exact (List.dropWhile_sublist (l := cs) (p := isPyWS)).subset h1

theorem mem_of_mem_removeDots {c : Char} {s : String}
    (h : c ∈ (removeDots s).data) : c ∈ s.data := by
  unfold removeDots at h
  exact List.mem_of_mem_filter h

theorem pyStrip_data (s : String) : (pyStrip s).data = stripChars s.data := rfl

theorem isNanKW_first {l : List Char} (h : isNanKW l = true) :
    ∃ a ∈ l, a = 'n' ∨ a = 'N' := by
  match l with
  | [a, b, c] =>
    simp only [isNanKW, Bool.and_eq_true, Bool.or_eq_true, beq_iff_eq] at h
    exact ⟨a, by simp, h.1.1⟩
  | [] => simp [isNanKW] at h
  | [_] => simp [isNanKW] at h
  | [_, _] => simp [isNanKW] at h
  | _ :: _ :: _ :: _ :: _ => simp [isNanKW] at h

/-! ## Claim C1 -/

/-- Claim C1: _parse_num trims whitespace; empty, "N/A" or missing input
yields 0.0; otherwise every dot is removed and the remainder parsed as a
float, with 0.0 on parse failure; the function is total (never throws, by
its Lean type), and parses "1.310" to the value 1310. -/
theorem parse_num_meets_spec :
    (∀ v : Option String, _parse_num v = parseNumber_spec v)
    ∧ _parse_num (some "1.310") = PyFloat.finite 1310 0
    ∧ (PyFloat.finite 1310 0).value = 1310
    ∧ _parse_num (some "") = PyFloat.finite 0 0
    ∧ _parse_num (some "N/A") = PyFloat.finite 0 0
    ∧ _parse_num (some " N/A ") = PyFloat.finite 0 0
    ∧ _parse_num none = PyFloat.finite 0 0 := by
  refine ⟨?_, by decide, ?_, by decide, by decide, by decide, rfl⟩
  · intro v
    cases v with
    | none => rfl
    | some s =>
      unfold _parse_num parseNumber_spec
      by_cases h1 : pyStrip s = "" <;> by_cases h2 : pyStrip s = "N/A" <;>
        simp [h1, h2]
  · norm_num [PyFloat.value, pow10]

/-! ## Claim C4 -/

theorem pyFloatOfString_isNonneg {s : String}
    (h : ∀ c ∈ s.data, c ≠ '-' ∧ c ≠ 'n' ∧ c ≠ 'N') :
    ∀ {f : PyFloat}, pyFloatOfString s = some f → f.isNonneg = true := by
  intro f hf
  simp only [pyFloatOfString] at hf
  rcases hcs : stripChars s.data with _ | ⟨c, rest⟩ <;> rw [hcs] at hf
  · simp at hf
  · dsimp only at hf
    have hsub : ∀ a ∈ c :: rest, a ∈ s.data := by
      intro a ha
      exact mem_of_mem_stripChars (hcs ▸ ha)
    have hcneg : c ≠ '-' := (h c (hsub c (List.mem_cons_self c rest))).1
    rw [if_neg hcneg] at hf
    set sb := (if c = '+' then ((false : Bool), rest) else (false, c :: rest))
      with hsbdef
    have hsb1 : sb.1 = false := by
      by_cases hp : c = '+' <;> simp [hsbdef, hp]
    have hsb2 : ∀ a ∈ sb.2, a ∈ s.data := by
      by_cases hp : c = '+' <;> simp only [hsbdef, hp, if_true, if_false] <;>
        intro a ha
      · exact hsub a (List.mem_cons_of_mem c ha)
      · exact hsub a ha
    rw [hsb1] at hf
    cases hinf : isInfKW sb.2 <;> rw [hinf] at hf
    · cases hnan : isNanKW sb.2 <;> rw [hnan] at hf
      · simp only [Bool.false_eq_true, if_false] at hf
        cases hfin : parseFin sb.2 <;> rw [hfin] at hf
        · simp at hf
        · rename_i mt
          simp only [Bool.false_eq_true, if_false, Option.some.injEq] at hf
          subst hf
          simp [PyFloat.isNonneg]
      · obtain ⟨a, ha, hor⟩ := isNanKW_first hnan
        rcases hor with h1 | h1
        · exact absurd h1 (h a (hsb2 a ha)).2.1
        · exact absurd h1 (h a (hsb2 a ha)).2.2
    · simp only [if_true] at hf
      simp only [Option.some.injEq] at hf
      subst hf
      simp [PyFloat.isNonneg]

theorem pow10_pos (e : ℤ) : 0 < pow10 e := by
  unfold pow10
  split
  · positivity
  · positivity

/-- Claim C4 (amended): _parse_num returns a non-negative, non-NaN value
for every raw cell that contains neither a minus sign nor the letter n/N
(in particular for all digit-and-dot formatted source cells) and for every
missing cell, and a non-negative result is non-negative as a rational
value; consequently every numeric-kind column parsed from such cells
contains only non-negative values.  (Unrestricted raw input can produce a
negative value or NaN — see the counterexample.) -/
theorem parse_num_nonneg :
    (∀ s : String, goodCell s → (_parse_num (some s)).isNonneg = true)
    ∧ (_parse_num none).isNonneg = true
    ∧ (∀ f : PyFloat, f.isNonneg = true → 0 ≤ f.value)
    ∧ (∀ cells : List (Option String), (∀ s, some s ∈ cells → goodCell s) →
        ∀ f ∈ parse_numeric_column cells, f.isNonneg = true) := by
  have hmain : ∀ s : String, goodCell s → (_parse_num (some s)).isNonneg = true := by
    intro s hs
    simp only [_parse_num]
    split
    · decide
    · have hgood : ∀ c ∈ (removeDots (pyStrip s)).data, c ≠ '-' ∧ c ≠ 'n' ∧ c ≠ 'N' := by
        intro c hc
        have h1 : c ∈ (pyStrip s).data := mem_of_mem_removeDots hc
        rw [pyStrip_data] at h1
        exact hs c (mem_of_mem_stripChars h1)
      cases hres : pyFloatOfString (removeDots (pyStrip s)) with
      | none => decide
      | some f => exact pyFloatOfString_isNonneg hgood hres
  refine ⟨hmain, by decide, ?_, ?_⟩
  · intro f hnn
    cases f with
    | nan => simp [PyFloat.isNonneg] at hnn
    | inf neg => simp [PyFloat.value]
    | finite m t =>
      simp only [PyFloat.isNonneg, decide_eq_true_eq] at hnn
      have hp := pow10_pos t
      exact mul_nonneg (by exact_mod_cast hnn) (le_of_lt hp)
  · intro cells hc f hf
    simp only [parse_numeric_column, List.mem_map] at hf
    obtain ⟨v, hv, rfl⟩ := hf
    cases v with
    | none => decide
    | some s => exact hmain s (hc s hv)

/-- Claim C4 counterexample: the raw cell "-5" parses to the negative value
-5.0, and the raw cell "nan" parses to NaN, so parseNumber does not return
a non-negative, non-NaN float for every raw input. -/
theorem parse_num_negative_counterexample :
    _parse_num (some "-5") = PyFloat.finite (-5) 0
    ∧ (_parse_num (some "-5")).isNonneg = false
    ∧ (_parse_num (some "-5")).value < 0
    ∧ _parse_num (some "nan") = PyFloat.nan := by
  refine ⟨by decide, by decide, ?_, by decide⟩
  have h : _parse_num (some "-5") = PyFloat.finite (-5) 0 := by decide
  rw [h]
  norm_num [PyFloat.value, pow10]

/-- Witness for parse_num_nonneg at the formatted source cell "1.310". -/
theorem parse_num_nonneg_witness :
    (_parse_num (some "1.310")).isNonneg = true
    ∧ 0 ≤ (_parse_num (some "1.310")).value :=
  ⟨parse_num_nonneg.1 "1.310" (by decide),
   parse_num_nonneg.2.2.1 _ (parse_num_nonneg.1 "1.310" (by decide))⟩

/-! ## Claim C2 -/

/-- Claim C2: diagnose_node resolves in two phases: case-insensitive exact
equality on the node name first (a unique exact match is used); only when
no exact match exists, case-insensitive substring containment, where zero
fuzzy matches produce the not-found error, more than one produces the
multiple-match error carrying the matching names, and a unique fuzzy match
is used as the resolved row. -/
theorem diagnose_node_resolution (df : List Row) (node_name : String) :
    (∀ r, df.filter (fun r => pyUpper r.nudo == pyUpper node_name) = [r] →
        diagnose_node df node_name = .record (mkDiag r))
    ∧ (df.filter (fun r => pyUpper r.nudo == pyUpper node_name) = [] →
        df.filter (fun r => ciContains r.nudo node_name) = [] →
        diagnose_node df node_name = .err ("Node '" ++ node_name ++ "' not found"))
    ∧ (df.filter (fun r => pyUpper r.nudo == pyUpper node_name) = [] →
        1 < (df.filter (fun r => ciContains r.nudo node_name)).length →
        diagnose_node df node_name =
          .errMatches ("Multiple matches for '" ++ node_name ++ "'")
            ((df.filter (fun r => ciContains r.nudo node_name)).map (fun r => r.nudo)))
    ∧ (∀ r, df.filter (fun r => pyUpper r.nudo == pyUpper node_name) = [] →
        df.filter (fun r => ciContains r.nudo node_name) = [r] →
        diagnose_node df node_name = .record (mkDiag r)) := by
  refine ⟨?_, ?_, ?_, ?_⟩
  · intro r h
    simp only [diagnose_node, h]
  · intro h1 h2
    simp only [diagnose_node, h1, h2]
  · intro h1 h2
    simp only [diagnose_node, h1]
    rcases hf : df.filter (fun r => ciContains r.nudo node_name) with _ | ⟨a, _ | ⟨b, t⟩⟩
    · rw [hf] at h2; simp at h2
    · rw [hf] at h2; simp at h2
    · rw [hf]
  · intro r h1 h2
    simp only [diagnose_node, h1, h2]

/-- Witness for diagnose_node_resolution: the ambiguous branch on a
two-row table fuzzily matched by "AB". -/
theorem diagnose_node_resolution_witness :
    diagnose_node [rowAbanto, rowAbanillas] "AB" =
      .errMatches "Multiple matches for 'AB'" ["ABANTO 400", "ABANILLAS 400"] :=
  ((diagnose_node_resolution [rowAbanto, rowAbanillas] "AB").2.2.1
    (by decide) (by decide)).trans (by decide)

/-! ## Claim C3 -/

/-- Claim C3 (amended): diagnose_node assigns the status by the first
matching rule of: AVAILABLE if the int()-truncated primary available
capacity is positive; else BLOCKED_TECHNICAL if a binding criterion is
reported for the primary capacity; else BLOCKED_REGULATORY if the
non-grantable reason is non-empty; else BLOCKED_UNKNOWN.  Whenever the
stored capacity is a whole number — as in this source format — the
truncated test coincides with capacity > 0, recovering the claim as
stated. -/
theorem diagnose_status_priority (row : Row) :
    ((mkDiag row).status = "AVAILABLE" ↔ 0 < pyInt row.disp_dem_cep_ch)
    ∧ (¬ 0 < pyInt row.disp_dem_cep_ch → row.limitante_dem_cep_ch ≠ "" →
        (mkDiag row).status = "BLOCKED_TECHNICAL")
    ∧ (¬ 0 < pyInt row.disp_dem_cep_ch → row.limitante_dem_cep_ch = "" →
        row.motivo_no_otorgable ≠ "" → (mkDiag row).status = "BLOCKED_REGULATORY")
    ∧ (¬ 0 < pyInt row.disp_dem_cep_ch → row.limitante_dem_cep_ch = "" →
        row.motivo_no_otorgable = "" → (mkDiag row).status = "BLOCKED_UNKNOWN")
    ∧ ((∃ k : ℤ, row.disp_dem_cep_ch = (k : ℚ)) →
        ((mkDiag row).status = "AVAILABLE" ↔ 0 < row.disp_dem_cep_ch)) := by
  have hs : (mkDiag row).status =
      (if 0 < pyInt row.disp_dem_cep_ch then "AVAILABLE"
       else if row.limitante_dem_cep_ch ≠ "" then "BLOCKED_TECHNICAL"
       else if row.motivo_no_otorgable ≠ "" then "BLOCKED_REGULATORY"
       else "BLOCKED_UNKNOWN") := by
    simp only [mkDiag]
    split_ifs <;> rfl
  have hint : ∀ k : ℤ, pyInt ((k : ℚ)) = k := by
    intro k
    simp [pyInt, Rat.num_intCast, Rat.den_intCast, Int.tdiv_one]
  refine ⟨?_, ?_, ?_, ?_, ?_⟩
  · rw [hs]
    split_ifs with h1 h2 h3 <;> simp [h1]
  · intro h1 h2
    rw [hs, if_neg h1, if_pos h2]
  · intro h1 h2 h3
    rw [hs, if_neg h1]
    simp [h2, h3]
  · intro h1 h2 h3
    rw [hs, if_neg h1]
    simp [h2, h3]
  · rintro ⟨k, hk⟩
    rw [hs, hk, hint k]
    constructor
    · intro h
      by_cases h0 : 0 < k
      · exact_mod_cast h0
      · rw [if_neg h0] at h
        split_ifs at h <;> simp_all
    · intro h
      have h0 : 0 < k := by exact_mod_cast h
      rw [if_pos h0]

/-- Claim C3 counterexample: a resolved row whose primary available
capacity is the fractional value 0.5 (> 0) with no binding criterion and no
non-grantable reason is classified BLOCKED_UNKNOWN, not AVAILABLE, because
the source tests int(disp_dem_cep_ch) > 0. -/
theorem diagnose_status_fractional_counterexample :
    diagnose_node [rowHalf] "FRACNODE 400" = .record (mkDiag rowHalf)
    ∧ 0 < rowHalf.disp_dem_cep_ch
    ∧ rowHalf.limitante_dem_cep_ch = ""
    ∧ rowHalf.motivo_no_otorgable = ""
    ∧ (mkDiag rowHalf).status = "BLOCKED_UNKNOWN" := by
  refine ⟨by decide, by decide, by decide, by decide, by decide⟩

/-- Witness for diagnose_status_priority: the ESCATRON 400 scenario (zero
primary capacity, combined binding criterion) is BLOCKED_TECHNICAL. -/
theorem diagnose_status_priority_witness :
    (mkDiag rowEscatron).status = "BLOCKED_TECHNICAL" :=
  (diagnose_status_priority rowEscatron).2.1 (by decide) (by decide)

/-! ## Claim C5 -/

theorem insertionSort_filter_key_eq {α : Type} (key : α → ℚ) (l : List α) (q : ℚ) :
    (List.insertionSort (fun a b => key a ≤ key b) l).filter
        (fun x => decide (key x = q)) =
      l.filter (fun x => decide (key x = q)) := by
  have hpw : (l.filter (fun x => decide (key x = q))).Pairwise
      (fun a b => key a ≤ key b) := by
    apply List.pairwise_of_forall_mem_list
    intro a ha b hb
    have ha2 := (List.mem_filter.mp ha).2
    have hb2 := (List.mem_filter.mp hb).2
    simp only [decide_eq_true_eq] at ha2 hb2
    rw [ha2, hb2]
  have hsub : List.Sublist (l.filter (fun x => decide (key x = q)))
      (List.insertionSort (fun a b => key a ≤ key b) l) :=
    List.sublist_insertionSort hpw (List.filter_sublist l)
  have hsub2 := hsub.filter (fun x => decide (key x = q))
  rw [List.filter_filter] at hsub2
  simp only [Bool.and_self] at hsub2
  have hlen : ((List.insertionSort (fun a b => key a ≤ key b) l).filter
      (fun x => decide (key x = q))).length =
      (l.filter (fun x => decide (key x = q))).length :=
    ((List.perm_insertionSort _ l).filter _).length_eq
  exact (List.Sublist.eq_of_length hsub2 hlen.symm).symm

/-- Claim C5 (amended): top_nodes is the first n elements of the
descending sort of the rows with strictly positive capacity; the result is
non-increasing in the ranked column and has length min n (count of rows
with capacity > 0), and the full sorted sequence is a permutation of the
positive-capacity rows — but ties between equal capacities appear in
REVERSE original row order, not original order, because the pandas
descending sort is the reversal of a stable ascending sort. -/
theorem top_nodes_spec (df : List Row) (n : ℕ) (key : Row → ℚ) :
    top_nodes df n key =
      (pandasSortDesc key (df.filter (fun r => decide (0 < key r)))).take n
    ∧ (top_nodes df n key).Pairwise (fun a b => key b ≤ key a)
    ∧ (top_nodes df n key).length =
        min n (df.filter (fun r => decide (0 < key r))).length
    ∧ (pandasSortDesc key (df.filter (fun r => decide (0 < key r)))).Perm
        (df.filter (fun r => decide (0 < key r)))
    ∧ ∀ q : ℚ,
        (pandasSortDesc key (df.filter (fun r => decide (0 < key r)))).filter
            (fun r => decide (key r = q)) =
          ((df.filter (fun r => decide (0 < key r))).filter
            (fun r => decide (key r = q))).reverse := by
  haveI : IsTotal Row (fun a b => key a ≤ key b) :=
    ⟨fun a b => le_total (key a) (key b)⟩
  haveI : IsTrans Row (fun a b => key a ≤ key b) :=
    ⟨fun _ _ _ h1 h2 => le_trans h1 h2⟩
  refine ⟨rfl, ?_, ?_, ?_, ?_⟩
  · have hsorted : (List.insertionSort (fun a b => key a ≤ key b)
        (df.filter (fun r => decide (0 < key r)))).Pairwise
        (fun a b => key a ≤ key b) :=
      List.sorted_insertionSort _ _
    have hrev : (pandasSortDesc key (df.filter (fun r => decide (0 < key r)))).Pairwise
        (fun a b => key b ≤ key a) :=
      List.pairwise_reverse.mpr hsorted
    exact hrev.sublist (List.take_sublist n _)
  · rw [top_nodes, List.length_take, pandasSortDesc, List.length_reverse,
      (List.perm_insertionSort _ _).length_eq]
  · exact (List.reverse_perm _).trans (List.perm_insertionSort _ _)
  · intro q
    rw [pandasSortDesc, List.filter_reverse, insertionSort_filter_key_eq]

/-- Claim C5 counterexample: two distinct rows with equal positive
capacity come back from top_nodes in reverse original order, so ties are
not broken by original row order. -/
theorem top_nodes_tie_counterexample :
    top_nodes [rowTieA, rowTieB] 2 (fun r => r.disp_dem_cep_ch) = [rowTieB, rowTieA]
    ∧ rowTieA ≠ rowTieB
    ∧ rowTieA.disp_dem_cep_ch = rowTieB.disp_dem_cep_ch
    ∧ 0 < rowTieA.disp_dem_cep_ch := by
  refine ⟨by decide, by decide, by decide, by decide⟩

/-! ## Claim C6 -/

/-- Claim C6 (amended): filter_nodes composes its optional predicates by
logical AND, and a non-empty region query keeps exactly the rows whose
region contains it as a case-insensitive substring (containment, not
equality); filtering on "Galicia" therefore returns only rows whose region
is literally "Galicia" whenever every region value is drawn from the known
region list, but not for arbitrary region values (see the
counterexample). -/
theorem filter_nodes_region (df : List Row) (q : String) (min_mw : ℚ)
    (cap : Row → ℚ) (voltage : Option ℚ) (oa : Bool) (oc : Option Bool) :
    (∀ r, r ∈ filter_nodes df (some q) min_mw cap voltage oa oc ↔
      r ∈ df
      ∧ (q ≠ "" → ciContains r.ccaa q = true)
      ∧ (0 < min_mw → min_mw ≤ cap r)
      ∧ (∀ v, voltage = some v → r.voltage_kv = some v)
      ∧ (oa = true → 0 < cap r)
      ∧ (∀ b, oc = some b → r.is_concurso = b))
    ∧ (q ≠ "" → filter_nodes df (some q) 0 cap none false none =
        df.filter (fun r => ciContains r.ccaa q))
    ∧ ((∀ r ∈ df, r.ccaa ∈ CCAA_LIST) →
        ∀ r ∈ filter_nodes df (some "Galicia") min_mw cap voltage oa oc,
          r.ccaa = "Galicia") := by
  have hmem : ∀ (q2 : String) (r : Row),
      r ∈ filter_nodes df (some q2) min_mw cap voltage oa oc ↔
      r ∈ df
      ∧ (q2 ≠ "" → ciContains r.ccaa q2 = true)
      ∧ (0 < min_mw → min_mw ≤ cap r)
      ∧ (∀ v, voltage = some v → r.voltage_kv = some v)
      ∧ (oa = true → 0 < cap r)
      ∧ (∀ b, oc = some b → r.is_concurso = b) := by
    intro q2 r
    have hA : (if q2 = "" then true else ciContains r.ccaa q2) = true ↔
        (q2 ≠ "" → ciContains r.ccaa q2 = true) := by
      by_cases hq : q2 = "" <;> simp [hq]
    have hB : (if 0 < min_mw then decide (min_mw ≤ cap r) else true) = true ↔
        (0 < min_mw → min_mw ≤ cap r) := by
      by_cases hm : 0 < min_mw <;> simp [hm]
    have hC : (match voltage with
        | none => true
        | some v =>
          match r.voltage_kv with
          | none => false
          | some w => decide (w = v)) = true ↔
        (∀ v, voltage = some v → r.voltage_kv = some v) := by
      cases voltage with
      | none => simp
      | some v =>
        cases hrv : r.voltage_kv <;> simp [hrv, eq_comm]
    have hD : (if oa then decide (0 < cap r) else true) = true ↔
        (oa = true → 0 < cap r) := by
      cases oa <;> simp
    have hE : (match oc with
        | none => true
        | some b => r.is_concurso == b) = true ↔
        (∀ b, oc = some b → r.is_concurso = b) := by
      cases oc <;> simp
    simp only [filter_nodes, List.mem_filter, Bool.and_eq_true]
    rw [hA, hB, hC, hD, hE]
    tauto
  have hgalicia : ∀ x ∈ CCAA_LIST, ciContains x "Galicia" = true → x = "Galicia" := by
    decide
  refine ⟨hmem q, ?_, ?_⟩
  · intro hq
    rw [filter_nodes]
    apply List.filter_congr
    intro r _
    simp [hq]
  · intro hccaa r hr
    have h1 := (hmem "Galicia" r).mp hr
    exact hgalicia r.ccaa (hccaa r h1.1) (h1.2.1 (by decide))

/-- Claim C6 counterexample: a row whose region is "Galician" — a strict
superstring of "Galicia" — survives filter_nodes(region="Galicia"), so the
filter does not return only rows whose region is exactly "Galicia". -/
theorem filter_nodes_galicia_counterexample :
    filter_nodes [rowGal] (some "Galicia") 0 (fun r => r.disp_dem_cep_ch)
        none false none = [rowGal]
    ∧ rowGal.ccaa ≠ "Galicia" := by
  refine ⟨by decide, by decide⟩

/-- Witness for filter_nodes_region: on a one-row table with region
"Galicia" (drawn from the known region list), every row surviving the
Galicia filter has region exactly "Galicia". -/
theorem filter_nodes_region_witness : rowSantiago.ccaa = "Galicia" :=
  (filter_nodes_region [rowSantiago] "Galicia" 0 (fun r => r.disp_dem_cep_ch)
    none false none).2.2 (by decide) rowSantiago (by decide)

/-! ## Claim C7 -/

/-- Claim C7: the col_count check of validate passes exactly when the
table's column count is at least EXPECTED_COLS (61) — but its "actual"
field reports the schema constant len(COLUMN_NAMES) = 61, not the table's
actual column count: on a 60-column table the check reports
expected 61 / actual 61 yet fails. -/
theorem validate_col_count_bug :
    List.lookup "col_count" (validate ⟨[], 60⟩) =
      some ⟨61, 61, false⟩
    ∧ (∀ t : Table, List.lookup "col_count" (validate t) =
        some ⟨EXPECTED_COLS, COLUMN_NAMES.length,
          decide ((t.ncols : ℤ) ≥ EXPECTED_COLS)⟩)
    ∧ COLUMN_NAMES.length = 61 := by
  refine ⟨by decide, fun t => rfl, by decide⟩

/-! ## Claim C8 -/

/-- Claim C8: generate_report does NOT return text for every record
produced by diagnose_node — for a node whose name has no trailing digits
(voltage_kv absent / NaN) the source raises ValueError at
int(diag["voltage_kv"]), modelled here as Except.error. -/
theorem generate_report_nan_voltage_raises :
    diagnose_node [rowMadrid] "MADRID" = .record (mkDiag rowMadrid)
    ∧ (mkDiag rowMadrid).voltage_kv = none
    ∧ generate_report (diagnose_node [rowMadrid] "MADRID") = .error () := by
  refine ⟨by decide, by decide, rfl⟩

/-! ## Claim C9 -/

/-- Claim C9 (amended): generate_report renders either error dictionary of
diagnose_node as the single line "Error: " followed by the message only;
the candidate list carried by a multiple-match error is not included in the
rendered text (the CLI layer prints the candidates itself). -/
theorem generate_report_error_rendering (msg : String) (names : List String) :
    generate_report (.errMatches msg names) = .ok ("Error: " ++ msg)
    ∧ generate_report (.err msg) = .ok ("Error: " ++ msg) :=
  ⟨rfl, rfl⟩

/-- Claim C9 counterexample: an ambiguous diagnosis of "AB" over two rows
renders as "Error: Multiple matches for 'AB'", which contains neither
candidate name. -/
theorem generate_report_ambiguous_counterexample :
    diagnose_node [rowAbanto, rowAbanillas] "AB" =
      .errMatches "Multiple matches for 'AB'" ["ABANTO 400", "ABANILLAS 400"]
    ∧ generate_report
        (.errMatches "Multiple matches for 'AB'" ["ABANTO 400", "ABANILLAS 400"]) =
      .ok "Error: Multiple matches for 'AB'"
    ∧ pyContains "Error: Multiple matches for 'AB'" "ABANTO 400" = false
    ∧ pyContains "Error: Multiple matches for 'AB'" "ABANILLAS 400" = false := by
  refine ⟨by decide, rfl, by decide, by decide⟩

/-! ## Claim C10 -/

theorem listHasSub_single {c : Char} {l : List Char} :
    listHasSub [c] l = true ↔ c ∈ l := by
  induction l with
  | nil => simp [listHasSub, listStarts]
  | cons h t ih =>
    simp [listHasSub, listStarts, ih, List.mem_cons, beq_iff_eq]

theorem splitSlashChars_no_slash {g : List Char} (h : '/' ∉ g) :
    splitSlashChars g = [g] := by
  induction g with
  | nil => rfl
  | cons c t ih =>
    have hc : ¬ c = '/' := fun hh => h (hh ▸ List.mem_cons_self c t)
    have ht : '/' ∉ t := fun hm => h (List.mem_cons_of_mem c hm)
    simp only [splitSlashChars, if_neg hc, ih ht]

theorem splitSlashChars_append {g : List Char} (t : List Char) (h : '/' ∉ g) :
    splitSlashChars (g ++ '/' :: t) = g :: splitSlashChars t := by
  induction g with
  | nil => simp [splitSlashChars]
  | cons c g2 ih =>
    have hc : ¬ c = '/' := fun hh => h (hh ▸ List.mem_cons_self c g2)
    have hg : '/' ∉ g2 := fun hm => h (List.mem_cons_of_mem c hm)
    show splitSlashChars (c :: (g2 ++ '/' :: t)) = (c :: g2) :: splitSlashChars t
    rw [splitSlashChars, if_neg hc, ih hg]

theorem pySplitSlash_joinSlash (p : String) (ps : List String)
    (h : ∀ x ∈ p :: ps, '/' ∉ x.data) :
    pySplitSlash (joinSlash (p :: ps)) = p :: ps := by
  induction ps generalizing p with
  | nil =>
    have hp : '/' ∉ p.data := h p (List.mem_cons_self p [])
    simp [pySplitSlash, joinSlash, joinSlashChars, splitSlashChars_no_slash hp]
  | cons p2 t ih =>
    have hp : '/' ∉ p.data := h p (List.mem_cons_self p (p2 :: t))
    have h2 : ∀ x ∈ p2 :: t, '/' ∉ x.data := fun x hx =>
      h x (List.mem_cons_of_mem p hx)
    have hrec := ih p2 h2
    simp only [pySplitSlash, joinSlash] at hrec ⊢
    simp only [List.map_cons, joinSlashChars] at hrec ⊢
    rw [splitSlashChars_append _ hp]
    simp only [List.map_cons]
    rw [hrec]

theorem filterMap_eq_map_getD {α β : Type} (g : α → Option β) (d : β)
    (l : List α) (h : ∀ a ∈ l, (g a).isSome = true) :
    l.filterMap g = l.map (fun a => (g a).getD d) := by
  induction l with
  | nil => rfl
  | cons a t ih =>
    obtain ⟨v, hv⟩ := Option.isSome_iff_exists.mp (h a (List.mem_cons_self a t))
    rw [List.filterMap_cons, List.map_cons, hv]
    simp only [hv, Option.getD_some]
    rw [ih fun x hx => h x (List.mem_cons_of_mem a hx)]

/-- Claim C10: for a binding criterion code joined from sub-codes by "/",
each bearing one of the known kinds (WSCR, Est_Dem, Est_Alm, Din1, Din2),
_margin_for_criterion reports the minimum of the margin fields referenced
by the sub-codes, comma-formatted. -/
theorem margin_for_combined (c0 : String) (crest : List String) (m : Margins)
    (hk : ∀ c ∈ c0 :: crest, (marginChain c m).isSome = true ∧ '/' ∉ c.data ∧
      pyStrip c = c ∧ c ≠ "") :
    _margin_for_criterion (joinSlash (c0 :: crest)) m =
      commaFmt (pyMin ((marginChain c0 m).getD 0)
        (crest.map (fun c => (marginChain c m).getD 0))) := by
  rcases crest with _ | ⟨c1, crest2⟩
  · obtain ⟨hsome, hnos, hstrip, hne⟩ := hk c0 (List.mem_cons_self c0 [])
    have hjoin : joinSlash [c0] = c0 := rfl
    rw [hjoin]
    unfold _margin_for_criterion
    rw [if_neg hne]
    have hcont : pyContains c0 "/" = false := by
      cases hcc : pyContains c0 "/"
      · rfl
      · exact absurd (listHasSub_single.mp hcc) hnos
    simp only [hcont, Bool.false_eq_true, if_false]
    obtain ⟨v, hv⟩ := Option.isSome_iff_exists.mp hsome
    simp [List.filterMap_cons, hv, pyMin]
  · have hp : '/' ∉ c0.data := (hk c0 (List.mem_cons_self c0 (c1 :: crest2))).2.1
    have hsplit : pySplitSlash (joinSlash (c0 :: c1 :: crest2)) = c0 :: c1 :: crest2 :=
      pySplitSlash_joinSlash c0 (c1 :: crest2) (fun x hx => (hk x hx).2.1)
    have hmem : '/' ∈ (joinSlash (c0 :: c1 :: crest2)).data := by
      show '/' ∈ joinSlashChars ((c0 :: c1 :: crest2).map (fun p => p.data))
      simp only [List.map_cons, joinSlashChars]
      exact List.mem_append_right _ (List.mem_cons_self _ _)
    have hslash : pyContains (joinSlash (c0 :: c1 :: crest2)) "/" = true :=
      listHasSub_single.mpr hmem
    have hne : joinSlash (c0 :: c1 :: crest2) ≠ "" := by
      intro hh
      rw [hh] at hmem
      simp at hmem
    unfold _margin_for_criterion
    rw [if_neg hne]
    simp only [hslash, if_true]
    rw [hsplit]
    have hstrip : (c0 :: c1 :: crest2).map pyStrip = c0 :: c1 :: crest2 := by
      have := List.map_congr_left (l := c0 :: c1 :: crest2)
        (f := pyStrip) (g := id) (fun x hx => (hk x hx).2.2.1)
      simpa using this
    rw [hstrip]
    rw [filterMap_eq_map_getD (fun c => marginChain c m) 0 _
      (fun c hc => (hk c hc).1)]
    simp [pyMin]

/-- Witness for margin_for_combined: the combined code
"Est_Dem_Nudo/Din1_Zona" reports the minimum of the Est_Dem and Din1
margins (7 for the concrete margins record). -/
theorem margin_for_combined_witness :
    _margin_for_criterion (joinSlash ["Est_Dem_Nudo", "Din1_Zona"]) marginsEx = "7" :=
  (margin_for_combined "Est_Dem_Nudo" ["Din1_Zona"] marginsEx (by decide)).trans
    (by decide)
